import Mathlib

/-!
Verification of `crates/t-rec/resources/list.c`, a minimal xcb demonstration
program.  The program is straight-line C: it opens a connection to the X
server, fetches the first screen from the connection setup, generates a
window id, creates a window, sets the WM_NAME and WM_ICON_NAME properties,
maps the window, flushes, and then spins in `while (1) {}`.

The embedding has three layers:
* `mainTrace` — the list of xcb library calls issued by `main`, as a function
  of the values the library hands back (the connection handle, the setup,
  the screen record, the generated window id), bundled in `XcbEnv`;
* a small-step machine (`step` over `MState`) giving the program counter of
  `main` line by line, used for the temporal claims (the loop never exits,
  `return 0` is unreachable, the loop body changes nothing);
* `run` — `main` as a function of an `Option xcb_screen_t`, making the
  undefined behaviour of dereferencing a null screen pointer explicit as an
  `Except` error.
-/

namespace TRec

/-- XCB constant `XCB_PROP_MODE_REPLACE` (value 0 in `xproto.h`). -/
def XCB_PROP_MODE_REPLACE : Nat := 0

/-- XCB predefined atom `XCB_ATOM_WM_NAME` (value 39 in `xproto.h`). -/
def XCB_ATOM_WM_NAME : Nat := 39

/-- XCB predefined atom `XCB_ATOM_WM_ICON_NAME` (value 37 in `xproto.h`). -/
def XCB_ATOM_WM_ICON_NAME : Nat := 37

/-- XCB predefined atom `XCB_ATOM_STRING` (value 31 in `xproto.h`). -/
def XCB_ATOM_STRING : Nat := 31

/-- XCB constant `XCB_WINDOW_CLASS_INPUT_OUTPUT` (value 1 in `xproto.h`). -/
def XCB_WINDOW_CLASS_INPUT_OUTPUT : Nat := 1

/-- The fields of `xcb_screen_t` that are plain scalars; the program reads
only `root` and `root_visual`. -/
structure xcb_screen_t where
  root : Nat
  default_colormap : Nat
  white_pixel : Nat
  black_pixel : Nat
  current_input_masks : Nat
  width_in_pixels : Nat
  height_in_pixels : Nat
  width_in_millimeters : Nat
  height_in_millimeters : Nat
  root_visual : Nat
  root_depth : Nat
deriving DecidableEq

/-- C `strlen` on the NUL-free ASCII string literals of this program: the
number of bytes before the terminating NUL, which for such literals is the
character count. -/
def strlen (s : String) : Nat := s.length

/-- The `title` literal of `main`. -/
def title : String := "Hello World !"

/-- The `iconTitle` literal of `main`. -/
def iconTitle : String := "Hello World ! (iconified)"

/-- One call into libxcb, with the arguments the program passes.  The
constructors after `xcb_flush` (`xcb_disconnect`, `xcb_destroy_window`,
`xcb_configure_window`, `xcb_wait_for_event`) never occur in this program;
they are in the type so that their absence from the trace is a statement,
not a tautology of an impoverished type. -/
inductive LibCall where
  | xcb_connect (displayname : Option String) (screenp : Option Nat)
  | xcb_get_setup (c : Nat)
  | xcb_setup_roots_iterator (setup : Nat)
  | xcb_generate_id (c : Nat)
  | xcb_create_window (c : Nat) (depth : Nat) (wid : Nat) (parent : Nat)
      (x : Int) (y : Int) (width : Nat) (height : Nat) (border_width : Nat)
      (window_class : Nat) (visual : Nat) (value_mask : Nat)
      (value_list : Option (List Nat))
  | xcb_change_property (c : Nat) (mode : Nat) (window : Nat) (property : Nat)
      (ptype : Nat) (format : Nat) (data_len : Nat) (data : String)
  | xcb_map_window (c : Nat) (window : Nat)
  | xcb_flush (c : Nat)
  | xcb_disconnect (c : Nat)
  | xcb_destroy_window (c : Nat) (window : Nat)
  | xcb_configure_window (c : Nat) (window : Nat) (value_mask : Nat)
  | xcb_wait_for_event (c : Nat)
deriving DecidableEq

/-- Which library function a call invokes, forgetting the arguments. -/
inductive CallKind where
  | k_connect
  | k_get_setup
  | k_setup_roots_iterator
  | k_generate_id
  | k_create_window
  | k_change_property
  | k_map_window
  | k_flush
  | k_disconnect
  | k_destroy_window
  | k_configure_window
  | k_wait_for_event
deriving DecidableEq

/-- The library function invoked by a call. -/
def kind : LibCall → CallKind
  | .xcb_connect _ _ => .k_connect
  | .xcb_get_setup _ => .k_get_setup
  | .xcb_setup_roots_iterator _ => .k_setup_roots_iterator
  | .xcb_generate_id _ => .k_generate_id
  | .xcb_create_window .. => .k_create_window
  | .xcb_change_property .. => .k_change_property
  | .xcb_map_window _ _ => .k_map_window
  | .xcb_flush _ => .k_flush
  | .xcb_disconnect _ => .k_disconnect
  | .xcb_destroy_window _ _ => .k_destroy_window
  | .xcb_configure_window .. => .k_configure_window
  | .xcb_wait_for_event _ => .k_wait_for_event

/-- The values the library hands back to `main` during the run: the
connection handle from `xcb_connect`, the setup from `xcb_get_setup`, the
screen record behind the roots iterator's `data` pointer, and the window id
from `xcb_generate_id`.  The program is a pure function of these. -/
structure XcbEnv where
  connection : Nat
  setup : Nat
  screen : xcb_screen_t
  window : Nat
deriving DecidableEq

/-- The complete sequence of libxcb calls issued by `main` before the final
`while (1) {}` loop, line by line from `list.c`. -/
def mainTrace (e : XcbEnv) : List LibCall :=
  [ .xcb_connect none none,
    .xcb_get_setup e.connection,
    .xcb_setup_roots_iterator e.setup,
    .xcb_generate_id e.connection,
    .xcb_create_window e.connection 0 e.window e.screen.root 0 0 250 150 10
      XCB_WINDOW_CLASS_INPUT_OUTPUT e.screen.root_visual 0 none,
    .xcb_change_property e.connection XCB_PROP_MODE_REPLACE e.window
      XCB_ATOM_WM_NAME XCB_ATOM_STRING 8 (strlen title) title,
    .xcb_change_property e.connection XCB_PROP_MODE_REPLACE e.window
      XCB_ATOM_WM_ICON_NAME XCB_ATOM_STRING 8 (strlen iconTitle) iconTitle,
    .xcb_map_window e.connection e.window,
    .xcb_flush e.connection ]

/-- Program counter of `main`: one state per statement, plus the loop state
and the (unreachable) state after `return 0`. -/
inductive PC where
  | s_connect
  | s_get_screen
  | s_generate_id
  | s_create_window
  | s_set_title
  | s_set_icon_title
  | s_map_window
  | s_flush
  | s_loop
  | s_return
deriving DecidableEq

/-- A machine state: the program counter plus the calls issued so far. -/
structure MState where
  pc : PC
  out : List LibCall
deriving DecidableEq

/-- One step of `main`: execute the statement at the program counter,
append the library calls it makes, advance.  The `while (1) {}` loop tests
the constant `1`, runs the empty body and comes back: the state is
unchanged.  No state steps to `s_return`, because the loop condition is
constant true. -/
def step (e : XcbEnv) (st : MState) : MState :=
  match st.pc with
  | .s_connect => ⟨.s_get_screen, st.out ++ [.xcb_connect none none]⟩
  | .s_get_screen => ⟨.s_generate_id,
      st.out ++ [.xcb_get_setup e.connection, .xcb_setup_roots_iterator e.setup]⟩
  | .s_generate_id => ⟨.s_create_window, st.out ++ [.xcb_generate_id e.connection]⟩
  | .s_create_window => ⟨.s_set_title,
      st.out ++ [.xcb_create_window e.connection 0 e.window e.screen.root 0 0
        250 150 10 XCB_WINDOW_CLASS_INPUT_OUTPUT e.screen.root_visual 0 none]⟩
  | .s_set_title => ⟨.s_set_icon_title,
      st.out ++ [.xcb_change_property e.connection XCB_PROP_MODE_REPLACE
        e.window XCB_ATOM_WM_NAME XCB_ATOM_STRING 8 (strlen title) title]⟩
  | .s_set_icon_title => ⟨.s_map_window,
      st.out ++ [.xcb_change_property e.connection XCB_PROP_MODE_REPLACE
        e.window XCB_ATOM_WM_ICON_NAME XCB_ATOM_STRING 8 (strlen iconTitle)
        iconTitle]⟩
  | .s_map_window => ⟨.s_flush, st.out ++ [.xcb_map_window e.connection e.window]⟩
  | .s_flush => ⟨.s_loop, st.out ++ [.xcb_flush e.connection]⟩
  | .s_loop => ⟨.s_loop, st.out⟩
  | .s_return => st

/-- The initial machine state: at the first statement, no calls yet. -/
def initState : MState := ⟨.s_connect, []⟩

/-- Closed form of the machine's run: the state after `n` steps from
`initState`.  From step 8 on the machine sits in the loop with the full
trace emitted. -/
def machineState (e : XcbEnv) : Nat → MState
  | 0 => ⟨.s_connect, []⟩
  | 1 => ⟨.s_get_screen, [.xcb_connect none none]⟩
  | 2 => ⟨.s_generate_id,
      [.xcb_connect none none, .xcb_get_setup e.connection,
       .xcb_setup_roots_iterator e.setup]⟩
  | 3 => ⟨.s_create_window,
      [.xcb_connect none none, .xcb_get_setup e.connection,
       .xcb_setup_roots_iterator e.setup, .xcb_generate_id e.connection]⟩
  | 4 => ⟨.s_set_title,
      [.xcb_connect none none, .xcb_get_setup e.connection,
       .xcb_setup_roots_iterator e.setup, .xcb_generate_id e.connection,
       .xcb_create_window e.connection 0 e.window e.screen.root 0 0 250 150 10
         XCB_WINDOW_CLASS_INPUT_OUTPUT e.screen.root_visual 0 none]⟩
  | 5 => ⟨.s_set_icon_title,
      [.xcb_connect none none, .xcb_get_setup e.connection,
       .xcb_setup_roots_iterator e.setup, .xcb_generate_id e.connection,
       .xcb_create_window e.connection 0 e.window e.screen.root 0 0 250 150 10
         XCB_WINDOW_CLASS_INPUT_OUTPUT e.screen.root_visual 0 none,
       .xcb_change_property e.connection XCB_PROP_MODE_REPLACE e.window
         XCB_ATOM_WM_NAME XCB_ATOM_STRING 8 (strlen title) title]⟩
  | 6 => ⟨.s_map_window,
      [.xcb_connect none none, .xcb_get_setup e.connection,
       .xcb_setup_roots_iterator e.setup, .xcb_generate_id e.connection,
       .xcb_create_window e.connection 0 e.window e.screen.root 0 0 250 150 10
         XCB_WINDOW_CLASS_INPUT_OUTPUT e.screen.root_visual 0 none,
       .xcb_change_property e.connection XCB_PROP_MODE_REPLACE e.window
         XCB_ATOM_WM_NAME XCB_ATOM_STRING 8 (strlen title) title,
       .xcb_change_property e.connection XCB_PROP_MODE_REPLACE e.window
         XCB_ATOM_WM_ICON_NAME XCB_ATOM_STRING 8 (strlen iconTitle) iconTitle]⟩
  | 7 => ⟨.s_flush,
      [.xcb_connect none none, .xcb_get_setup e.connection,
       .xcb_setup_roots_iterator e.setup, .xcb_generate_id e.connection,
       .xcb_create_window e.connection 0 e.window e.screen.root 0 0 250 150 10
         XCB_WINDOW_CLASS_INPUT_OUTPUT e.screen.root_visual 0 none,
       .xcb_change_property e.connection XCB_PROP_MODE_REPLACE e.window
         XCB_ATOM_WM_NAME XCB_ATOM_STRING 8 (strlen title) title,
       .xcb_change_property e.connection XCB_PROP_MODE_REPLACE e.window
         XCB_ATOM_WM_ICON_NAME XCB_ATOM_STRING 8 (strlen iconTitle) iconTitle,
       .xcb_map_window e.connection e.window]⟩
  | _ + 8 => ⟨.s_loop, mainTrace e⟩

/-- Stepping the closed form advances it by one index. -/
theorem step_machineState (e : XcbEnv) :
    ∀ n, step e (machineState e n) = machineState e (n + 1)
  | 0 => rfl
  | 1 => rfl
  | 2 => rfl
  | 3 => rfl
  | 4 => rfl
  | 5 => rfl
  | 6 => rfl
  | 7 => rfl
  | _ + 8 => rfl

/-- The iterate of `step` from `initState` is the closed form. -/
theorem iterate_machineState (e : XcbEnv) :
    ∀ n, (step e)^[n] initState = machineState e n := by
  intro n
  induction n with
  | zero => rfl
  | succ n ih => rw [Function.iterate_succ_apply', ih, step_machineState]

/-- Whether a call is `xcb_create_window` for window id `w`. -/
def isCreateOf (w : Nat) : LibCall → Bool
  | .xcb_create_window _ _ wid .. => decide (wid = w)
  | _ => false

/-- Whether a call is `xcb_destroy_window` for window id `w`. -/
def isDestroyOf (w : Nat) : LibCall → Bool
  | .xcb_destroy_window _ wid => decide (wid = w)
  | _ => false

/-- Whether a call is `xcb_configure_window` for window id `w`. -/
def isConfigureOf (w : Nat) : LibCall → Bool
  | .xcb_configure_window _ wid _ => decide (wid = w)
  | _ => false

/-- A run of `main` as a function of what `xcb_setup_roots_iterator (...)
.data` points to.  The C code dereferences `screen` with no null check; a
null `data` pointer (a setup with no screens) is undefined behaviour,
modelled as the error branch. -/
inductive CRuntimeError where
  | null_screen_deref
deriving DecidableEq

/-- The body of `main` over an optional screen: with a screen present it
issues exactly `mainTrace`; with a null screen pointer the two
dereferences `screen->root` and `screen->root_visual` fault. -/
def run (connection setup : Nat) (screen : Option xcb_screen_t) (window : Nat) :
    Except CRuntimeError (List LibCall) :=
  match screen with
  | none => .error .null_screen_deref
  | some s => .ok (mainTrace ⟨connection, setup, s, window⟩)

/-- A concrete screen used for witnesses. -/
def scr0 : xcb_screen_t := ⟨7, 11, 12, 13, 14, 1920, 1080, 500, 280, 9, 24⟩

/-- A concrete environment used for witnesses. -/
def env0 : XcbEnv := ⟨1, 2, scr0, 5⟩

/-- A second concrete screen: same `root` and `root_visual` as `scr0` but
different in every other field. -/
def scr1 : xcb_screen_t := ⟨7, 21, 22, 23, 24, 800, 600, 200, 150, 9, 16⟩

/-- A second concrete environment, differing from `env0` only in the screen
fields the program never reads. -/
def env1 : XcbEnv := ⟨1, 2, scr1, 5⟩

/-- C1: the calls of the spec's sequence — connect, create window, set
title, set icon title, map, flush — occur in exactly that order, each once,
none skipped, repeated or reordered (the trace restricted to those library
functions is precisely that sequence); after the flush, and only then, the
machine is in the final loop, having issued exactly `mainTrace`. -/
theorem c1_call_sequence (e : XcbEnv) :
    (mainTrace e).filter (fun c => decide (kind c ∈
        [CallKind.k_connect, CallKind.k_create_window, CallKind.k_change_property,
         CallKind.k_map_window, CallKind.k_flush])) =
      [ .xcb_connect none none,
        .xcb_create_window e.connection 0 e.window e.screen.root 0 0 250 150 10
          XCB_WINDOW_CLASS_INPUT_OUTPUT e.screen.root_visual 0 none,
        .xcb_change_property e.connection XCB_PROP_MODE_REPLACE e.window
          XCB_ATOM_WM_NAME XCB_ATOM_STRING 8 (strlen title) title,
        .xcb_change_property e.connection XCB_PROP_MODE_REPLACE e.window
          XCB_ATOM_WM_ICON_NAME XCB_ATOM_STRING 8 (strlen iconTitle) iconTitle,
        .xcb_map_window e.connection e.window,
        .xcb_flush e.connection ] ∧
    ((step e)^[8] initState).pc = PC.s_loop ∧
    ((step e)^[8] initState).out = mainTrace e := by
  refine ⟨rfl, ?_, ?_⟩ <;> rw [iterate_machineState] <;> rfl

/-- C2: `main` never terminates: in no number of steps does the machine
reach the state after `return 0`, and from step 8 on it is forever in the
empty loop. -/
theorem c2_never_returns (e : XcbEnv) (n : Nat) :
    ((step e)^[n] initState).pc ≠ PC.s_return ∧
    (8 ≤ n → ((step e)^[n] initState).pc = PC.s_loop) := by
  rw [iterate_machineState]
  rcases n with _ | _ | _ | _ | _ | _ | _ | _ | n
  all_goals first
  | exact ⟨nofun, fun h => absurd h (by omega)⟩
  | exact ⟨nofun, fun _ => rfl⟩

/-- Witness for C2 at a concrete environment and step count. -/
theorem c2_never_returns_witness :
    ((step env0)^[8] initState).pc ≠ PC.s_return ∧
    ((step env0)^[8] initState).pc = PC.s_loop :=
  ⟨(c2_never_returns env0 8).1, (c2_never_returns env0 8).2 (by decide)⟩

/-- C3: exactly one `xcb_create_window` call is issued over the whole run,
and in every reachable machine state there is no destroy and no configure
(resize/reconfigure) request for the window, so once created it is still
alive (strictly more creates than destroys) in every later state. -/
theorem c3_single_window_invariant (e : XcbEnv) :
    (mainTrace e).countP (isCreateOf e.window) = 1 ∧
    ∀ n, ((step e)^[n] initState).out.countP (isDestroyOf e.window) = 0 ∧
      ((step e)^[n] initState).out.countP (isConfigureOf e.window) = 0 ∧
      (1 ≤ ((step e)^[n] initState).out.countP (isCreateOf e.window) →
        ((step e)^[n] initState).out.countP (isDestroyOf e.window) <
          ((step e)^[n] initState).out.countP (isCreateOf e.window)) := by
  refine ⟨by simp [mainTrace, isCreateOf], ?_⟩
  intro n
  rw [iterate_machineState]
  rcases n with _ | _ | _ | _ | _ | _ | _ | _ | n <;>
    refine ⟨rfl, rfl, ?_⟩ <;>
    simp [machineState, mainTrace, isCreateOf, isDestroyOf]

/-- Witness for C3 at a concrete environment, in the state after the
create has happened. -/
theorem c3_single_window_invariant_witness :
    (mainTrace env0).countP (isCreateOf env0.window) = 1 ∧
    ((step env0)^[8] initState).out.countP (isDestroyOf env0.window) <
      ((step env0)^[8] initState).out.countP (isCreateOf env0.window) :=
  ⟨(c3_single_window_invariant env0).1,
   ((c3_single_window_invariant env0).2 8).2.2 (by decide)⟩

/-- C4: the connection is opened exactly once (one `xcb_connect` in the
trace) and never closed: no reachable machine state has issued an
`xcb_disconnect`. -/
theorem c4_connection_lifetime (e : XcbEnv) :
    (mainTrace e).countP (fun c => decide (kind c = CallKind.k_connect)) = 1 ∧
    ∀ n, ((step e)^[n] initState).out.countP
        (fun c => decide (kind c = CallKind.k_disconnect)) = 0 := by
  refine ⟨rfl, ?_⟩
  intro n
  rw [iterate_machineState]
  rcases n with _ | _ | _ | _ | _ | _ | _ | _ | n <;> rfl

/-- C5: the control path is straight-line and independent of every value
the library returns: whatever connection, setup, screen and window id the
library hands back, the sequence of library functions invoked is the same
fixed nine-element sequence — the program never branches on a return
value. -/
theorem c5_straight_line (e : XcbEnv) :
    (mainTrace e).map kind =
      [CallKind.k_connect, CallKind.k_get_setup, CallKind.k_setup_roots_iterator,
       CallKind.k_generate_id, CallKind.k_create_window, CallKind.k_change_property,
       CallKind.k_change_property, CallKind.k_map_window, CallKind.k_flush] :=
  rfl

/-- C6: the final loop is empty: one iteration from any state at the loop
leaves the whole machine state (program counter and emitted calls) exactly
unchanged, and no reachable state has ever read an event
(`xcb_wait_for_event` never appears), so all input events are discarded. -/
theorem c6_empty_loop (e : XcbEnv) :
    (∀ st : MState, st.pc = PC.s_loop → step e st = st) ∧
    ∀ n, ((step e)^[n] initState).out.countP
        (fun c => decide (kind c = CallKind.k_wait_for_event)) = 0 := by
  constructor
  · intro st h
    obtain ⟨pc, out⟩ := st
    cases h
    rfl
  · intro n
    rw [iterate_machineState]
    rcases n with _ | _ | _ | _ | _ | _ | _ | _ | n <;> rfl

/-- Witness for C6: at a concrete environment and loop state, one step
changes nothing. -/
theorem c6_empty_loop_witness :
    step env0 ⟨PC.s_loop, mainTrace env0⟩ = ⟨PC.s_loop, mainTrace env0⟩ :=
  (c6_empty_loop env0).1 ⟨PC.s_loop, mainTrace env0⟩ rfl

/-- C7 counterexample: the trace of `main` before the final loop has nine
library calls using eight distinct library functions — not four and not
five as the claim states. -/
theorem c7_call_count_counterexample :
    (mainTrace env0).length = 9 ∧
    ((mainTrace env0).map kind).dedup.length = 8 ∧
    ¬(((mainTrace env0).map kind).dedup.length = 4 ∨
      ((mainTrace env0).map kind).dedup.length = 5) := by
  refine ⟨rfl, rfl, by decide⟩

/-- C7 amended: the entire program is a linear sequence of nine library
calls into the external protocol client library before the final loop,
invoking eight distinct library functions. -/
theorem c7_call_count_amended (e : XcbEnv) :
    (mainTrace e).length = 9 ∧ ((mainTrace e).map kind).dedup.length = 8 :=
  ⟨rfl, rfl⟩

/-- C8: every `xcb_create_window` call in the trace (there is one) has the
fixed parameters depth 0, position (0, 0), width 250, height 150, border
width 10, class INPUT_OUTPUT, parent the screen's root, visual the screen's
root visual, value mask 0 with no value list — independent of the
environment's other values. -/
theorem c8_create_params (e : XcbEnv) (c : LibCall) (hc : c ∈ mainTrace e)
    (hk : kind c = CallKind.k_create_window) :
    c = .xcb_create_window e.connection 0 e.window e.screen.root 0 0 250 150 10
      XCB_WINDOW_CLASS_INPUT_OUTPUT e.screen.root_visual 0 none := by
  simp only [mainTrace, List.mem_cons, List.mem_singleton] at hc
  rcases hc with rfl | rfl | rfl | rfl | rfl | rfl | rfl | rfl | rfl | h
  · exact absurd hk (by simp [kind])
  · exact absurd hk (by simp [kind])
  · exact absurd hk (by simp [kind])
  · exact absurd hk (by simp [kind])
  · rfl
  · exact absurd hk (by simp [kind])
  · exact absurd hk (by simp [kind])
  · exact absurd hk (by simp [kind])
  · exact absurd hk (by simp [kind])
  · exact absurd h (by simp)

/-- Witness for C8: the concrete create call of the concrete trace has the
fixed parameters. -/
theorem c8_create_params_witness :
    LibCall.xcb_create_window env0.connection 0 env0.window env0.screen.root
        0 0 250 150 10 XCB_WINDOW_CLASS_INPUT_OUTPUT env0.screen.root_visual
        0 none =
      LibCall.xcb_create_window env0.connection 0 env0.window env0.screen.root
        0 0 250 150 10 XCB_WINDOW_CLASS_INPUT_OUTPUT env0.screen.root_visual
        0 none :=
  c8_create_params env0 _ (by decide) (by decide)

/-- C9: both property calls use replace mode on the same generated window
id, 8-bit format, type STRING, and a data length equal to `strlen` of the
literal: 13 bytes for WM_NAME ("Hello World !") and 25 bytes for
WM_ICON_NAME ("Hello World ! (iconified)"). -/
theorem c9_property_calls (e : XcbEnv) :
    strlen title = 13 ∧ strlen iconTitle = 25 ∧
    (mainTrace e)[5]? = some (.xcb_change_property e.connection
      XCB_PROP_MODE_REPLACE e.window XCB_ATOM_WM_NAME XCB_ATOM_STRING 8
      (strlen title) title) ∧
    (mainTrace e)[6]? = some (.xcb_change_property e.connection
      XCB_PROP_MODE_REPLACE e.window XCB_ATOM_WM_ICON_NAME XCB_ATOM_STRING 8
      (strlen iconTitle) iconTitle) :=
  ⟨rfl, rfl, rfl, rfl⟩

/-- C10: with at least one screen in the setup (`some s`) the run succeeds
and the null-deref branch is unreachable; with a null screen pointer it
faults; and the trace depends on the screen only through `root` and
`root_visual` — those two dereferences are the only accesses through the
screen pointer. -/
theorem c10_screen_deref (connection setup window : Nat) (s : xcb_screen_t) :
    run connection setup (some s) window =
      .ok (mainTrace ⟨connection, setup, s, window⟩) ∧
    run connection setup none window = .error .null_screen_deref ∧
    ∀ e₂ : XcbEnv, e₂.connection = connection → e₂.setup = setup →
      e₂.window = window → e₂.screen.root = s.root →
      e₂.screen.root_visual = s.root_visual →
      mainTrace e₂ = mainTrace ⟨connection, setup, s, window⟩ := by
  refine ⟨rfl, rfl, ?_⟩
  intro e₂ h1 h2 h3 h4 h5
  simp [mainTrace, h1, h2, h3, h4, h5]

/-- Witness for C10: two concrete environments agreeing on `root` and
`root_visual` but on no other screen field give the same trace, and the
concrete run with a screen present succeeds. -/
theorem c10_screen_deref_witness :
    run 1 2 (some scr0) 5 = .ok (mainTrace ⟨1, 2, scr0, 5⟩) ∧
    mainTrace env1 = mainTrace ⟨1, 2, scr0, 5⟩ :=
  ⟨(c10_screen_deref 1 2 5 scr0).1,
   (c10_screen_deref 1 2 5 scr0).2.2 env1 rfl rfl rfl rfl rfl⟩

end TRec
